import Mathlib

/-!
Shallow embedding of the Bourstad-Helper pipeline (scraper.py, dashboard.py,
analyzer.py) and proofs about its recommendation rules, symbol mapping,
read-through cache and session handling.

Python strings are modelled by Lean `String`; the string operations used by
the code (`split`, `replace`, `strip`, `in`) are re-implemented below as
structurally recursive functions on `List Char` so that the kernel can
evaluate them on concrete inputs.  Python floats are modelled by `ℚ`.
-/

namespace Bourstad

/-! ### Python string primitives -/

/-- Splitting helper: `acc` is the current chunk (reversed), `fuel` bounds the
recursion (any `fuel ≥ l.length` computes the full split).  Mirrors Python
`str.split(sep)` for a non-empty separator. -/
def pySplitAux (sep : List Char) : ℕ → List Char → List Char → List (List Char)
  | _, acc, [] => [acc.reverse]
  | 0, acc, l => [acc.reverse ++ l]
  | fuel + 1, acc, c :: cs =>
    if sep.isPrefixOf (c :: cs) then
      acc.reverse :: pySplitAux sep fuel [] (List.drop sep.length (c :: cs))
    else
      pySplitAux sep fuel (c :: acc) cs

/-- Python `s.split(sep)` for a non-empty separator `sep`. -/
def pySplit (sep s : String) : List String :=
  (pySplitAux sep.data s.data.length [] s.data).map String.mk

/-- Replacement helper with fuel (any `fuel ≥ l.length` computes the full
replacement).  Mirrors Python `str.replace(pat, repl)` for non-empty `pat`:
non-overlapping occurrences, left to right. -/
def pyReplaceAux (pat repl : List Char) : ℕ → List Char → List Char
  | _, [] => []
  | 0, l => l
  | fuel + 1, c :: cs =>
    if pat.isPrefixOf (c :: cs) then
      repl ++ pyReplaceAux pat repl fuel (List.drop pat.length (c :: cs))
    else
      c :: pyReplaceAux pat repl fuel cs

/-- Python `s.replace(pat, repl)` for a non-empty pattern. -/
def pyReplace (pat repl s : String) : String :=
  String.mk (pyReplaceAux pat.data repl.data s.data.length s.data)

/-- Whitespace characters stripped by Python `str.strip()` (the ones that can
occur in the scraped text). -/
def isPyWhitespace (c : Char) : Bool :=
  c = ' ' || c = '\t' || c = '\n' || c = '\r'

/-- Python `s.strip()`. -/
def pyStrip (s : String) : String :=
  String.mk (((s.data.dropWhile isPyWhitespace).reverse.dropWhile isPyWhitespace).reverse)

/-- Containment of a list as a contiguous sublist, mirroring Python
`pat in s` on strings. -/
def listContainsSub (pat : List Char) : List Char → Bool
  | [] => pat.isEmpty
  | c :: cs => pat.isPrefixOf (c :: cs) || listContainsSub pat cs

/-- Python `pat in s` on strings. -/
def pyContains (pat s : String) : Bool :=
  listContainsSub pat.data s.data

/-! ### Values of provider dictionaries

`yfinance`'s `Ticker.info` is a JSON-like dict whose values (for the keys this
program reads) are numbers, strings, or Python `None`. -/

/-- A value stored in a provider/info dictionary. -/
inductive PyVal
  | num (q : ℚ)
  | str (s : String)
  | pynone
  deriving DecidableEq, Repr

/-- A Python dict with string keys, modelled as an association list without
duplicate keys (first binding wins, as in the JSON payloads the code reads). -/
abbrev Info := List (String × PyVal)

/-- Python `d.get(k, dflt)`. -/
def dictGet (info : Info) (k : String) (dflt : PyVal) : PyVal :=
  match info.find? (fun kv => kv.1 = k) with
  | some kv => kv.2
  | none => dflt

/-- Python `k in d`. -/
def dictContains (info : Info) (k : String) : Bool :=
  (info.find? (fun kv => kv.1 = k)).isSome

/-! ### Recommendation engine: `analyze_stocks` (analyzer.py, dashboard.py)

`analyze_stocks` reads each stock dict with `stock.get(key, 0)`, so an absent
numeric field degrades to `0`; the fields are modelled as the rationals the
rules compare.  The two copies of the function (analyzer.py lines 10-43 and
dashboard.py lines 235-269) run the identical rule chain and are embedded
once. -/

/-- The numeric fields of one stock record as `analyze_stocks` extracts them
(`stock.get("Current Price", 0)` and so on), plus name and symbol. -/
structure Snapshot where
  symbol : String
  name : String
  currentPrice : ℚ
  week52High : ℚ
  week52Low : ℚ
  pe : ℚ
  dividendYield : ℚ
  deriving DecidableEq, Repr

/-- The f-string `f"{name} ({symbol}): {rest}"` used by every recommendation
line. -/
def recLine (name symbol rest : String) : String :=
  name ++ " (" ++ symbol ++ "): " ++ rest

/-- The proximity if/elif chain of `analyze_stocks` (first match wins). -/
def proximityLine (s : Snapshot) : String :=
  if s.currentPrice ≤ s.week52Low * (11 / 10) then
    recLine s.name s.symbol "Strong Buy - Near 52-week low."
  else if s.currentPrice ≤ s.week52Low * (12 / 10) then
    recLine s.name s.symbol "Buy - Approaching 52-week low."
  else if s.currentPrice ≥ s.week52High * (9 / 10) then
    recLine s.name s.symbol "Strong Sell - Near 52-week high."
  else if s.currentPrice ≥ s.week52High * (8 / 10) then
    recLine s.name s.symbol "Sell - Approaching 52-week high."
  else
    recLine s.name s.symbol "Hold - Trading within a stable range."

/-- The fundamentals if/elif of `analyze_stocks`: at most one extra line. -/
def fundamentalsLines (s : Snapshot) : List String :=
  if s.pe < 15 ∧ s.dividendYield > 3 / 100 then
    [recLine s.name s.symbol "Buy - Strong fundamentals (Low P/E and High Dividend)."]
  else if s.pe > 30 then
    [recLine s.name s.symbol "Sell - Overvalued (High P/E)."]
  else
    []

/-- The per-stock body of the `analyze_stocks` loop: the insufficient-data
guard appends the Neutral line and `continue`s (skipping the proximity and
fundamentals checks); otherwise one proximity line is appended, then the
fundamentals lines. -/
def analyzeOne (s : Snapshot) : List String :=
  if s.currentPrice = 0 ∨ s.week52High = 0 ∨ s.week52Low = 0 then
    [recLine s.name s.symbol "Neutral - Insufficient data."]
  else
    proximityLine s :: fundamentalsLines s

/-- `analyze_stocks(stock_data)`: the appends of the loop, in order. -/
def analyze_stocks (stock_data : List Snapshot) : List String :=
  stock_data.flatMap analyzeOne

/-! ### Recommendation engine: `generate_recommendation` (dashboard.py 204-223)

`generate_recommendation` reads the fields with default `"N/A"` and compares
against the string sentinel `"N/A"`; an unavailable field is modelled as
`none`. -/

/-- The three fields `generate_recommendation` reads from the real-time data
dict; `none` stands for the `"N/A"` sentinel. -/
structure RealTimeData where
  currentPrice : Option ℚ
  week52High : Option ℚ
  week52Low : Option ℚ
  deriving DecidableEq, Repr

/-- `generate_recommendation(real_time_data)` returning `(label, score)`. -/
def generate_recommendation (d : RealTimeData) : String × ℕ :=
  match d.currentPrice, d.week52High, d.week52Low with
  | some price, some high, some low =>
    if price ≤ low * (11 / 10) then ("Strong Buy", 100)
    else if price ≤ low * (12 / 10) then ("Buy", 75)
    else if price ≥ high * (9 / 10) then ("Strong Sell", 0)
    else if price ≥ high * (8 / 10) then ("Sell", 25)
    else ("Hold", 50)
  | _, _, _ => ("Neutral", 50)

/-! ### Symbol mapping

The repository contains two functions named `map_bourstad_to_yfinance`:
a lookup-table version in scraper.py (lines 371-381) that defaults to the
input symbol, and a suffix-rule version in dashboard.py (lines 78-93) whose
`base_symbol, suffix = symbol.split(":")` unpacking raises `ValueError`
when the symbol holds two or more delimiters.  Both are embedded. -/

namespace Scraper

/-- scraper.py `map_bourstad_to_yfinance`: `mappings.get(bourstad_symbol,
bourstad_symbol)` over the two-entry lookup table. -/
def map_bourstad_to_yfinance (bourstad_symbol : String) : String :=
  if bourstad_symbol = "MMM:EGX" then "MMM"
  else if bourstad_symbol = "VNP:CA" then "VNP.TO"
  else bourstad_symbol

end Scraper

namespace Dashboard

/-- dashboard.py `map_bourstad_to_yfinance`: `.error` models the `ValueError`
raised by the two-variable unpacking of `symbol.split(":")` when the split has
a number of parts other than two; `.ok none` models returning Python `None`
for an unknown suffix. -/
def map_bourstad_to_yfinance (symbol : String) : Except Unit (Option String) :=
  match pySplit ":" symbol with
  | [_] => .ok (some symbol)
  | [base, suffix] =>
    if suffix = "CA" then .ok (some (base ++ ".TO"))
    else if suffix = "EGX" then .ok (some base)
    else .ok none
  | _ => .error ()

/-- dashboard.py `filter_valid_symbols`: keeps the truthy mapped symbols, in
order; an exception raised by the mapper propagates. -/
def filter_valid_symbols : List String → Except Unit (List String)
  | [] => .ok []
  | s :: rest =>
    match map_bourstad_to_yfinance s with
    | .error e => .error e
    | .ok r =>
      match filter_valid_symbols rest with
      | .error e => .error e
      | .ok tail =>
        match r with
        | some m => if m = "" then .ok tail else .ok (m :: tail)
        | none => .ok tail

end Dashboard

/-! ### The read-through market-data cache

`fetch_with_cache` also exists twice: scraper.py lines 242-277 (with
corruption self-healing and a validity check before caching) and dashboard.py
lines 12-28 (no corruption handling, caches unconditionally).  The cache
directory is a map from symbol to entry; an entry either deserializes to an
info dict (`good`) or fails to deserialize (`corrupt`).  The provider
(`yf.Ticker(symbol).info`) either raises or yields a dict.  Each fetch
returns `(value, new cache state, number of provider calls made)`. -/

/-- Result of one provider query: an exception, or an info dict (possibly
empty). -/
inductive ProviderResult
  | exn
  | dict (info : Info)
  deriving DecidableEq, Repr

/-- One on-disk cache file: its bytes either deserialize to an info dict or
fail to deserialize. -/
inductive CacheEntry
  | corrupt
  | good (info : Info)
  deriving DecidableEq, Repr

/-- The cache directory: at most one entry per key. -/
abbrev CacheState := String → Option CacheEntry

/-- Writing a cache file for key `k`. -/
def cacheInsert (k : String) (e : CacheEntry) (st : CacheState) : CacheState :=
  fun s => if s = k then some e else st s

/-- Deleting the cache file for key `k` (`os.remove`). -/
def cacheErase (k : String) (st : CacheState) : CacheState :=
  fun s => if s = k then none else st s

namespace Scraper

/-- The provider-query part of scraper.py `fetch_with_cache` (the `try` block
after the cache check): an exception or a falsy/non-dict result returns
`None` without caching; a non-empty dict is cached and returned. -/
def fetchFresh (provider : String → ProviderResult) (symbol : String) (st : CacheState) :
    Option Info × CacheState × ℕ :=
  match provider symbol with
  | .exn => (none, st, 1)
  | .dict info =>
    if info = [] then (none, st, 1)
    else (some info, cacheInsert symbol (.good info) st, 1)

/-- scraper.py `fetch_with_cache`: a deserializable cache entry is returned
with no provider call; a corrupt entry is deleted and the provider queried;
a missing entry goes straight to the provider. -/
def fetch_with_cache (provider : String → ProviderResult) (symbol : String) (st : CacheState) :
    Option Info × CacheState × ℕ :=
  match st symbol with
  | some (.good info) => (some info, st, 0)
  | some .corrupt => fetchFresh provider symbol (cacheErase symbol st)
  | none => fetchFresh provider symbol st

/-- scraper.py `fetch_stock_data`: maps the symbol (skipping falsy mappings),
fetches through the cache, and returns `None` unless the info dict is truthy
and holds a non-`None` `currentPrice`; otherwise builds the stock-data dict. -/
def fetch_stock_data (provider : String → ProviderResult) (symbol : String) (st : CacheState) :
    Option Info × CacheState × ℕ :=
  let formatted := map_bourstad_to_yfinance symbol
  if formatted = "" then (none, st, 0)
  else
    match fetch_with_cache provider formatted st with
    | (none, st2, n) => (none, st2, n)
    | (some info, st2, n) =>
      if info = [] ∨ dictContains info "currentPrice" = false ∨
          dictGet info "currentPrice" .pynone = .pynone then
        (none, st2, n)
      else
        (some [("Symbol", .str symbol),
            ("Name", dictGet info "longName" (.str "N/A")),
            ("Current Price", dictGet info "currentPrice" (.str "N/A")),
            ("Market Cap", dictGet info "marketCap" (.str "N/A")),
            ("52-Week High", dictGet info "fiftyTwoWeekHigh" (.str "N/A")),
            ("52-Week Low", dictGet info "fiftyTwoWeekLow" (.str "N/A"))], st2, n)

end Scraper

namespace Dashboard

/-- dashboard.py `fetch_with_cache`: an existing entry is deserialized with no
exception handler, so a corrupt entry raises to the caller (`.error`); on a
miss the provider result is cached and returned with no validity check. -/
def fetch_with_cache (provider : String → ProviderResult) (symbol : String) (st : CacheState) :
    Except Unit Info × CacheState × ℕ :=
  match st symbol with
  | some (.good info) => (.ok info, st, 0)
  | some .corrupt => (.error (), st, 0)
  | none =>
    match provider symbol with
    | .exn => (.error (), st, 1)
    | .dict info => (.ok info, cacheInsert symbol (.good info) st, 1)

end Dashboard

/-- A provider that always returns a usable one-field record. -/
def provA : String → ProviderResult :=
  fun _ => ProviderResult.dict [("currentPrice", PyVal.num 1)]

/-- A provider whose record lacks `currentPrice`. -/
def provPartial : String → ProviderResult :=
  fun _ => ProviderResult.dict [("longName", PyVal.str "Foo")]

/-- A provider that always raises. -/
def provExn : String → ProviderResult :=
  fun _ => ProviderResult.exn

/-- The empty cache directory. -/
def emptyCache : CacheState := fun _ => none

/-- A cache whose entry for `"A"` fails to deserialize. -/
def corruptCacheA : CacheState :=
  fun s => if s = "A" then some CacheEntry.corrupt else none

/-! ### Authentication and catalog fetch (scraper.py `fetch_and_parse_stocks`)

The network and environment are modelled as the observations the function
makes of them: the two configured URLs, the login response's status and body
text, the `suid`/`aut` query parameters of the post-login redirect URL
(`parse_qs(...).get(key, [None])[0]`), the catalog response's status, and the
dropdown options when the `select` control is present.  The write to
`data/extracted_stocks.txt` is returned as the content written (`none` when
the file is never opened). -/

/-- Python truthiness test `not x` for an optional string (`None` and `""`
are falsy). -/
def pyFalsy : Option String → Bool
  | none => true
  | some s => s == ""

/-- The environment observed by one run of `fetch_and_parse_stocks`. -/
structure LoginEnv where
  login_url : Option String
  stocks_url : Option String
  loginStatus : ℕ
  loginText : String
  suidParam : Option String
  autParam : Option String
  stocksStatus : ℕ
  selectElement : Option (List (String × String))

/-- The observable outcome of `fetch_and_parse_stocks`: the returned triple
`(stocks, suid, aut)` plus the content written to
`data/extracted_stocks.txt` (`none` when the function returns before the
write). -/
structure FetchStocksResult where
  stocks : List (String × String)
  suid : Option String
  aut : Option String
  extractedFile : Option String
  deriving DecidableEq, Repr

/-- scraper.py `fetch_and_parse_stocks` (lines 22-84): each failure path
returns `([], None, None)` without touching the fallback file; on full
success the parsed options (absent control means an empty catalog) are
written line-by-line to the fallback file — opened in write mode, hence
truncated first — and returned with both tokens. -/
def fetch_and_parse_stocks (env : LoginEnv) : FetchStocksResult :=
  if pyFalsy env.login_url || pyFalsy env.stocks_url then
    ⟨[], none, none, none⟩
  else if env.loginStatus != 200 || pyContains "Se connecter" env.loginText then
    ⟨[], none, none, none⟩
  else if pyFalsy env.suidParam || pyFalsy env.autParam then
    ⟨[], none, none, none⟩
  else if env.stocksStatus != 200 then
    ⟨[], none, none, none⟩
  else
    let stocks :=
      match env.selectElement with
      | some opts => opts.map (fun o => (o.1, pyStrip o.2))
      | none => []
    ⟨stocks, env.suidParam, env.autParam,
      some (String.join (stocks.map (fun st => "ID: " ++ st.1 ++ ", Name: " ++ st.2 ++ "\n")))⟩

/-- One line of the fallback-file parser inside dashboard.py
`get_bourstad_securities`: split on `", "`, require at least two parts with
`"ID: "` in the first, strip the markers, and skip empty identifiers. -/
def parseExtractedLine (line : String) : Option (String × String) :=
  match pySplit ", " line with
  | p0 :: p1 :: _ =>
    if pyContains "ID: " p0 then
      let stock_id := pyStrip (pyReplace "ID: " "" p0)
      let stock_name := pyStrip (pyReplace "Name: " "" p1)
      if stock_id ≠ "" then some (stock_id, stock_name) else none
    else none
  | _ => none

/-- Iterating a text file line by line (an empty file yields no lines). -/
def pyLines (content : String) : List String :=
  if content = "" then [] else pySplit "\n" content

/-- The offline fallback load of `data/extracted_stocks.txt` in
`get_bourstad_securities`. -/
def loadExtractedStocks (content : String) : List (String × String) :=
  (pyLines content).filterMap parseExtractedLine

/-! ### Claims C1-C3 : the recommendation rules -/

/-- C1: for every market snapshot whose currentPrice, week52High and week52Low
are all available and positive, whenever `price ≤ low * 1.10` the first
proximity rule wins: `generate_recommendation` returns `("Strong Buy", 100)`
(even when a high-proximity rule would also match, since the rules are checked
in order with the first match winning), and `analyze_stocks` emits the
"Strong Buy - Near 52-week low" line as the snapshot's proximity line. -/
theorem C1_strong_buy_priority :
    (∀ (d : RealTimeData) (price high low : ℚ),
        d.currentPrice = some price → d.week52High = some high → d.week52Low = some low →
        0 < price → 0 < high → 0 < low → price ≤ low * (11 / 10) →
        generate_recommendation d = ("Strong Buy", 100)) ∧
    (∀ (stock_data : List Snapshot) (s : Snapshot), s ∈ stock_data →
        0 < s.currentPrice → 0 < s.week52High → 0 < s.week52Low →
        s.currentPrice ≤ s.week52Low * (11 / 10) →
        analyzeOne s =
            recLine s.name s.symbol "Strong Buy - Near 52-week low." :: fundamentalsLines s ∧
          recLine s.name s.symbol "Strong Buy - Near 52-week low." ∈ analyze_stocks stock_data) := by
  constructor
  · intro d price high low hp hh hl _ _ _ hnear
    simp only [generate_recommendation, hp, hh, hl, if_pos hnear]
  · intro stock_data s hmem hp hh hl hnear
    have hguard : ¬ (s.currentPrice = 0 ∨ s.week52High = 0 ∨ s.week52Low = 0) := by
      push_neg
      exact ⟨hp.ne', hh.ne', hl.ne'⟩
    have hone : analyzeOne s =
        recLine s.name s.symbol "Strong Buy - Near 52-week low." :: fundamentalsLines s := by
      rw [analyzeOne, if_neg hguard, proximityLine, if_pos hnear]
    refine ⟨hone, ?_⟩
    exact List.mem_flatMap.mpr ⟨s, hmem, by rw [hone]; exact List.mem_cons_self _ _⟩

/-- C1 witness: a snapshot where price, high and low all equal 1, so the
StrongSell rule (`price ≥ high * 0.9`) also matches, still yields
Strong Buy / 100 and the Strong Buy line. -/
theorem C1_strong_buy_priority_witness :
    generate_recommendation ⟨some 1, some 1, some 1⟩ = ("Strong Buy", 100) ∧
      recLine "N" "A" "Strong Buy - Near 52-week low." ∈
        analyze_stocks [⟨"A", "N", 1, 1, 1, 20, 0⟩] :=
  ⟨C1_strong_buy_priority.1 ⟨some 1, some 1, some 1⟩ 1 1 1 rfl rfl rfl
      (by norm_num) (by norm_num) (by norm_num) (by norm_num),
    (C1_strong_buy_priority.2 [⟨"A", "N", 1, 1, 1, 20, 0⟩] ⟨"A", "N", 1, 1, 1, 20, 0⟩
      (by simp) (by norm_num) (by norm_num) (by norm_num) (by norm_num)).2⟩

/-- C2: whenever any of the three price fields is the unavailable sentinel
(`"N/A"` for `generate_recommendation`, `0` for `analyze_stocks`), evaluation
returns Neutral with score 50: `generate_recommendation` returns
`("Neutral", 50)` and `analyze_stocks` emits the
"Neutral - Insufficient data" line for that snapshot. -/
theorem C2_neutral_on_sentinel :
    (∀ d : RealTimeData,
        d.currentPrice = none ∨ d.week52High = none ∨ d.week52Low = none →
        generate_recommendation d = ("Neutral", 50)) ∧
    (∀ (stock_data : List Snapshot) (s : Snapshot), s ∈ stock_data →
        s.currentPrice = 0 ∨ s.week52High = 0 ∨ s.week52Low = 0 →
        analyzeOne s = [recLine s.name s.symbol "Neutral - Insufficient data."] ∧
          recLine s.name s.symbol "Neutral - Insufficient data." ∈ analyze_stocks stock_data) := by
  constructor
  · rintro ⟨cp, hi, lo⟩ h
    rcases h with h | h | h <;> simp only at h <;> subst h
    · rfl
    · cases cp <;> rfl
    · cases cp <;> cases hi <;> rfl
  · intro stock_data s hmem hguard
    have hone : analyzeOne s = [recLine s.name s.symbol "Neutral - Insufficient data."] := by
      rw [analyzeOne, if_pos hguard]
    refine ⟨hone, ?_⟩
    exact List.mem_flatMap.mpr ⟨s, hmem, by rw [hone]; exact List.mem_cons_self _ _⟩

/-- C2 witness: a real-time record with currentPrice `"N/A"` and a stock
record with a 52-week high of 0 both evaluate to Neutral. -/
theorem C2_neutral_on_sentinel_witness :
    generate_recommendation ⟨none, some 1, some 1⟩ = ("Neutral", 50) ∧
      recLine "N" "A" "Neutral - Insufficient data." ∈
        analyze_stocks [⟨"A", "N", 5, 0, 1, 10, 1 / 20⟩] :=
  ⟨C2_neutral_on_sentinel.1 ⟨none, some 1, some 1⟩ (Or.inl rfl),
    (C2_neutral_on_sentinel.2 [⟨"A", "N", 5, 0, 1, 10, 1 / 20⟩] ⟨"A", "N", 5, 0, 1, 10, 1 / 20⟩
      (by simp) (Or.inr (Or.inl rfl))).2⟩

/-- C3 counterexample: a snapshot with `pe = 10 < 15` and
`dividendYield = 0.05 > 0.03` but `currentPrice = 0` produces only the
Neutral insufficient-data line; the fundamentals Buy line is NOT produced,
because the insufficient-data guard `continue`s past the fundamentals checks.
This refutes the claim that the fundamentals checks are applied "with no
insufficient-data guard" and fire "independently of" the
insufficient-data line. -/
theorem C3_counterexample :
    (Snapshot.pe ⟨"A", "N", 0, 1, 1, 10, 1 / 20⟩ < 15 ∧
        Snapshot.dividendYield ⟨"A", "N", 0, 1, 1, 10, 1 / 20⟩ > 3 / 100) ∧
      analyze_stocks [⟨"A", "N", 0, 1, 1, 10, 1 / 20⟩] =
        ["N (A): Neutral - Insufficient data."] ∧
      "N (A): Buy - Strong fundamentals (Low P/E and High Dividend)." ∉
        analyze_stocks [⟨"A", "N", 0, 1, 1, 10, 1 / 20⟩] := by
  refine ⟨⟨by norm_num, by norm_num⟩, by decide, by decide⟩

/-- C3 amended: the fundamentals checks run only for snapshots that pass the
insufficient-data guard; for those they are additive and applied to the raw
`peRatio`/`dividendYield` values: `pe < 15 ∧ dividendYield > 0.03` appends the
fundamentals Buy line after the proximity line, `pe > 30` appends the
overvalued Sell line, and otherwise only the proximity line is produced.
A snapshot failing the guard produces only the Neutral line and the
fundamentals checks are skipped. -/
theorem C3_amended_fundamentals_guarded :
    (∀ s : Snapshot,
        s.currentPrice ≠ 0 → s.week52High ≠ 0 → s.week52Low ≠ 0 →
        analyzeOne s = proximityLine s :: fundamentalsLines s ∧
          (s.pe < 15 ∧ s.dividendYield > 3 / 100 →
            analyzeOne s = [proximityLine s,
              recLine s.name s.symbol "Buy - Strong fundamentals (Low P/E and High Dividend)."]) ∧
          (s.pe > 30 →
            analyzeOne s = [proximityLine s,
              recLine s.name s.symbol "Sell - Overvalued (High P/E)."]) ∧
          (¬ (s.pe < 15 ∧ s.dividendYield > 3 / 100) → ¬ s.pe > 30 →
            analyzeOne s = [proximityLine s])) ∧
    (∀ s : Snapshot, s.currentPrice = 0 ∨ s.week52High = 0 ∨ s.week52Low = 0 →
        analyzeOne s = [recLine s.name s.symbol "Neutral - Insufficient data."]) := by
  constructor
  · intro s hp hh hl
    have hguard : ¬ (s.currentPrice = 0 ∨ s.week52High = 0 ∨ s.week52Low = 0) := by
      push_neg
      exact ⟨hp, hh, hl⟩
    have hone : analyzeOne s = proximityLine s :: fundamentalsLines s := by
      rw [analyzeOne, if_neg hguard]
    refine ⟨hone, ?_, ?_, ?_⟩
    · intro hfund
      rw [hone, fundamentalsLines, if_pos hfund]
    · intro hover
      have hnotfund : ¬ (s.pe < 15 ∧ s.dividendYield > 3 / 100) := by
        rintro ⟨hlt, -⟩
        linarith
      rw [hone, fundamentalsLines, if_neg hnotfund, if_pos hover]
    · intro hnotfund hnotover
      rw [hone, fundamentalsLines, if_neg hnotfund, if_neg hnotover]
  · intro s hguard
    rw [analyzeOne, if_pos hguard]

/-- C3 amended witness: the spec's own mid-range example (pe = 10,
dividendYield = 0.05, price exactly mid-range) produces the Hold proximity
line plus the fundamentals Buy line. -/
theorem C3_amended_fundamentals_guarded_witness :
    analyzeOne ⟨"A", "N", 65, 100, 50, 10, 1 / 20⟩ =
      [proximityLine ⟨"A", "N", 65, 100, 50, 10, 1 / 20⟩,
        recLine "N" "A" "Buy - Strong fundamentals (Low P/E and High Dividend)."] :=
  ((C3_amended_fundamentals_guarded.1 ⟨"A", "N", 65, 100, 50, 10, 1 / 20⟩
      (by norm_num) (by norm_num) (by norm_num)).2.1 ⟨by norm_num, by norm_num⟩)

/-! ### Claims C4-C5 : the symbol mapper -/

/-- Helper: `pySplitAux` never returns the empty list (a Python `str.split`
always has at least one part). -/
theorem pySplitAux_ne_nil (sep : List Char) :
    ∀ (fuel : ℕ) (acc l : List Char), pySplitAux sep fuel acc l ≠ [] := by
  intro fuel
  induction fuel with
  | zero =>
    intro acc l
    cases l <;> simp [pySplitAux]
  | succ n ih =>
    intro acc l
    cases l with
    | nil => simp [pySplitAux]
    | cons c cs =>
      rw [pySplitAux]
      split
      · simp
      · exact ih _ _

/-- C4 counterexample: the scraper's `map_bourstad_to_yfinance` does NOT map
an identifier with an unrecognized suffix to "no mapping": its lookup table
defaults to the unchanged input, so `"XYZ:ZZ"` maps to `"XYZ:ZZ"` (only the
dashboard's function of the same name returns `None` there). -/
theorem C4_counterexample :
    Scraper.map_bourstad_to_yfinance "XYZ:ZZ" = "XYZ:ZZ" ∧
      Dashboard.map_bourstad_to_yfinance "XYZ:ZZ" = .ok none :=
  ⟨rfl, rfl⟩

/-- C4 amended: the dashboard's `map_bourstad_to_yfinance` maps `"MMM:EGX"`
to `"MMM"` and `"VNP:CA"` to `"VNP.TO"`, and maps every identifier whose
single-delimiter suffix is neither `"CA"` nor `"EGX"` to `None`;
`filter_valid_symbols` then removes the `None`-mapped identifier from the
batch.  The scraper's `map_bourstad_to_yfinance` instead returns an
unrecognized identifier unchanged (so nothing is removed downstream there). -/
theorem C4_amended_mapping :
    Dashboard.map_bourstad_to_yfinance "MMM:EGX" = .ok (some "MMM") ∧
      Dashboard.map_bourstad_to_yfinance "VNP:CA" = .ok (some "VNP.TO") ∧
      (∀ (s base sfx : String), pySplit ":" s = [base, sfx] →
        sfx ≠ "CA" → sfx ≠ "EGX" → Dashboard.map_bourstad_to_yfinance s = .ok none) ∧
      (∀ (pre post : List String) (s : String),
        Dashboard.map_bourstad_to_yfinance s = .ok none →
        Dashboard.filter_valid_symbols (pre ++ s :: post) =
          Dashboard.filter_valid_symbols (pre ++ post)) ∧
      Scraper.map_bourstad_to_yfinance "XYZ:ZZ" = "XYZ:ZZ" := by
  refine ⟨rfl, rfl, ?_, ?_, rfl⟩
  · intro s base sfx hsplit h1 h2
    simp only [Dashboard.map_bourstad_to_yfinance, hsplit]
    rw [if_neg h1, if_neg h2]
  · intro pre post s hmap
    induction pre with
    | nil =>
      simp only [List.nil_append, Dashboard.filter_valid_symbols, hmap]
      cases Dashboard.filter_valid_symbols post <;> rfl
    | cons a rest ih =>
      simp only [List.cons_append, Dashboard.filter_valid_symbols, List.append_eq, ih]

/-- C4 amended witness: with an unrecognized identifier in the middle of a
batch, it is dropped from the filtered symbol list. -/
theorem C4_amended_mapping_witness :
    Dashboard.map_bourstad_to_yfinance "XYZ:ZZ" = .ok none ∧
      Dashboard.filter_valid_symbols (["MMM:EGX"] ++ "XYZ:ZZ" :: ["VNP:CA"]) =
        Dashboard.filter_valid_symbols (["MMM:EGX"] ++ ["VNP:CA"]) :=
  ⟨C4_amended_mapping.2.2.1 "XYZ:ZZ" "XYZ" "ZZ" (by decide) (by decide) (by decide),
    C4_amended_mapping.2.2.2.1 ["MMM:EGX"] ["VNP:CA"] "XYZ:ZZ"
      (C4_amended_mapping.2.2.1 "XYZ:ZZ" "XYZ" "ZZ" (by decide) (by decide) (by decide))⟩

/-- C5 counterexample: the dashboard's `map_bourstad_to_yfinance` is not
total: on the input `"A:B:C"`, which contains two delimiter characters,
`base_symbol, suffix = symbol.split(":")` raises a `ValueError` (modelled as
`.error ()`), so the function does not return a result. -/
theorem C5_counterexample :
    Dashboard.map_bourstad_to_yfinance "A:B:C" = .error () :=
  rfl

/-- C5 amended: both mapper variants are pure functions of their input (and
hence deterministic); the scraper's variant is total on every string
(returning the input unchanged outside its lookup table); the dashboard's
variant returns a value without raising exactly on inputs containing at most
one delimiter, and raises `ValueError` on inputs whose split has more than
two parts. -/
theorem C5_amended_totality :
    (∀ s : String,
        ((∃ r, Dashboard.map_bourstad_to_yfinance s = .ok r) ↔
          (pySplit ":" s).length ≤ 2) ∧
        (2 < (pySplit ":" s).length → Dashboard.map_bourstad_to_yfinance s = .error ())) ∧
    (∀ s : String, s ≠ "MMM:EGX" → s ≠ "VNP:CA" →
        Scraper.map_bourstad_to_yfinance s = s) := by
  constructor
  · intro s
    rcases hsplit : pySplit ":" s with - | ⟨a, - | ⟨b, - | ⟨c, t⟩⟩⟩
    · exact absurd hsplit (by simpa [pySplit] using pySplitAux_ne_nil ":".data _ [] s.data)
    · constructor
      · simp [Dashboard.map_bourstad_to_yfinance, hsplit]
      · simp [hsplit]
    · constructor
      · simp only [Dashboard.map_bourstad_to_yfinance, hsplit]
        split_ifs <;> simp [hsplit]
      · simp [hsplit]
    · constructor
      · simp [Dashboard.map_bourstad_to_yfinance, hsplit]
      · intro
        simp [Dashboard.map_bourstad_to_yfinance, hsplit]
  · intro s h1 h2
    simp [Scraper.map_bourstad_to_yfinance, h1, h2]

/-- C5 amended witness: a one-delimiter input gets a result, and an input
outside the scraper's lookup table is returned unchanged. -/
theorem C5_amended_totality_witness :
    (∃ r, Dashboard.map_bourstad_to_yfinance "VNP:CA" = .ok r) ∧
      Scraper.map_bourstad_to_yfinance "IBM" = "IBM" :=
  ⟨((C5_amended_totality.1 "VNP:CA").1).mpr (by decide),
    C5_amended_totality.2 "IBM" (by decide) (by decide)⟩

/-! ### Claims C6-C8 : the read-through cache -/

/-- C6: cache idempotence for both `fetch_with_cache` variants.  If a call
for a key returns a usable payload, it made at most one provider round trip,
and an immediately repeated call for the same key (same provider, no
intervening corruption) is answered entirely from the cache: it makes zero
provider calls, leaves the cache unchanged, and returns the same payload. -/
theorem C6_cache_idempotence :
    (∀ (provider : String → ProviderResult) (symbol : String) (st st1 : CacheState)
        (p : Info) (n1 : ℕ),
        Scraper.fetch_with_cache provider symbol st = (some p, st1, n1) →
        n1 ≤ 1 ∧ Scraper.fetch_with_cache provider symbol st1 = (some p, st1, 0)) ∧
    (∀ (provider : String → ProviderResult) (symbol : String) (st st1 : CacheState)
        (p : Info) (n1 : ℕ),
        Dashboard.fetch_with_cache provider symbol st = (.ok p, st1, n1) →
        n1 ≤ 1 ∧ Dashboard.fetch_with_cache provider symbol st1 = (.ok p, st1, 0)) := by
  constructor
  · intro provider symbol st st1 p n1 h
    rw [Scraper.fetch_with_cache] at h
    have fresh : ∀ st0 : CacheState,
        Scraper.fetchFresh provider symbol st0 = (some p, st1, n1) →
        n1 ≤ 1 ∧ Scraper.fetch_with_cache provider symbol st1 = (some p, st1, 0) := by
      intro st0 h0
      rw [Scraper.fetchFresh] at h0
      rcases hp : provider symbol with - | info <;> simp only [hp] at h0
      · simp at h0
      · by_cases hi : info = []
        · rw [if_pos hi] at h0
          simp at h0
        · rw [if_neg hi] at h0
          simp only [Prod.mk.injEq, Option.some.injEq] at h0
          obtain ⟨h1, h2, h3⟩ := h0
          subst h1
          subst h2
          subst h3
          refine ⟨le_refl 1, ?_⟩
          simp [Scraper.fetch_with_cache, cacheInsert]
    rcases hs : st symbol with - | e <;> simp only [hs] at h
    · exact fresh st h
    · cases e with
      | corrupt => exact fresh (cacheErase symbol st) h
      | good info =>
        simp only [Prod.mk.injEq, Option.some.injEq] at h
        obtain ⟨h1, h2, h3⟩ := h
        subst h1
        subst h2
        subst h3
        exact ⟨Nat.zero_le 1, by simp [Scraper.fetch_with_cache, hs]⟩
  · intro provider symbol st st1 p n1 h
    rw [Dashboard.fetch_with_cache] at h
    rcases hs : st symbol with - | e <;> simp only [hs] at h
    · rcases hp : provider symbol with - | info <;> simp only [hp] at h
      · simp at h
      · simp only [Prod.mk.injEq, Except.ok.injEq] at h
        obtain ⟨h1, h2, h3⟩ := h
        subst h1
        subst h2
        subst h3
        refine ⟨le_refl 1, ?_⟩
        simp [Dashboard.fetch_with_cache, cacheInsert]
    · cases e with
      | corrupt => simp at h
      | good info =>
        simp only [Prod.mk.injEq, Except.ok.injEq] at h
        obtain ⟨h1, h2, h3⟩ := h
        subst h1
        subst h2
        subst h3
        exact ⟨Nat.zero_le 1, by simp [Dashboard.fetch_with_cache, hs]⟩

/-- C6 witness: on an empty cache, the first call to the scraper's
`fetch_with_cache` fetches and caches the payload (one provider call); the
repeat call hits the cache with zero provider calls and the same payload. -/
theorem C6_cache_idempotence_witness :
    1 ≤ 1 ∧
      Scraper.fetch_with_cache provA "A"
          (cacheInsert "A" (CacheEntry.good [("currentPrice", PyVal.num 1)]) emptyCache) =
        (some [("currentPrice", PyVal.num 1)],
          cacheInsert "A" (CacheEntry.good [("currentPrice", PyVal.num 1)]) emptyCache, 0) :=
  C6_cache_idempotence.1 provA "A" emptyCache
    (cacheInsert "A" (CacheEntry.good [("currentPrice", PyVal.num 1)]) emptyCache)
    [("currentPrice", PyVal.num 1)] 1 rfl

/-- C7 counterexample: when the provider returns a non-empty record lacking
`currentPrice`, `fetch_stock_data` does return "unavailable" (`None`) — but
`fetch_with_cache` has already written the partial record to the cache, so
the claim that nothing is written is false. -/
theorem C7_counterexample :
    (Scraper.fetch_stock_data provPartial "MMM:EGX" emptyCache).1 = none ∧
      (Scraper.fetch_stock_data provPartial "MMM:EGX" emptyCache).2.1 "MMM" =
        some (CacheEntry.good [("longName", PyVal.str "Foo")]) :=
  ⟨rfl, rfl⟩

/-- C7 amended: for a symbol with no usable provider record, the cache-backed
fetch returns `None`; nothing is written to the cache when the provider
raises or returns an empty record, but a non-empty record lacking
`currentPrice` IS cached (as a partial entry) by `fetch_with_cache` before
`fetch_stock_data` returns `None`. -/
theorem C7_amended_partial_caching :
    ∀ (provider : String → ProviderResult) (symbol : String) (st : CacheState)
      (formatted : String),
      Scraper.map_bourstad_to_yfinance symbol = formatted →
      formatted ≠ "" → st formatted = none →
      ((provider formatted = .exn ∨ provider formatted = .dict [] →
          Scraper.fetch_stock_data provider symbol st = (none, st, 1)) ∧
        (∀ info, provider formatted = .dict info → info ≠ [] →
          dictContains info "currentPrice" = false →
          (Scraper.fetch_stock_data provider symbol st).1 = none ∧
            (Scraper.fetch_stock_data provider symbol st).2.1 formatted =
              some (CacheEntry.good info))) := by
  intro provider symbol st formatted hmap hne hmiss
  have hcache : Scraper.fetch_with_cache provider formatted st =
      Scraper.fetchFresh provider formatted st := by
    rw [Scraper.fetch_with_cache, hmiss]
  constructor
  · intro hbad
    simp only [Scraper.fetch_stock_data, hmap, if_neg hne, hcache, Scraper.fetchFresh]
    rcases hbad with hbad | hbad <;> rw [hbad]
    rfl
  · intro info hdict hinfo hnoprice
    simp only [Scraper.fetch_stock_data, hmap, if_neg hne, hcache, Scraper.fetchFresh,
      hdict, if_neg hinfo]
    have hguard : info = [] ∨ dictContains info "currentPrice" = false ∨
        dictGet info "currentPrice" .pynone = .pynone :=
      Or.inr (Or.inl hnoprice)
    rw [if_pos hguard]
    exact ⟨rfl, by simp [cacheInsert]⟩

/-- C7 amended witness: a provider exception yields `None` and leaves the
cache unchanged. -/
theorem C7_amended_partial_caching_witness :
    Scraper.fetch_stock_data provExn "IBM" emptyCache = (none, emptyCache, 1) :=
  (C7_amended_partial_caching provExn "IBM" emptyCache "IBM" rfl (by decide) rfl).1
    (Or.inl rfl)

/-- C8 counterexample: the dashboard's `fetch_with_cache` does not self-heal
a corrupt entry: it raises the deserialization error to the caller
(`.error`), performs zero provider fetches, and leaves the corrupt entry in
place. -/
theorem C8_counterexample :
    Dashboard.fetch_with_cache provA "A" corruptCacheA = (.error (), corruptCacheA, 0) ∧
      (Dashboard.fetch_with_cache provA "A" corruptCacheA).2.1 "A" =
        some CacheEntry.corrupt :=
  ⟨rfl, rfl⟩

/-- C8 amended: the scraper's `fetch_with_cache` self-heals: on a cache state
whose entry for the key fails to deserialize, it behaves exactly like a fresh
provider fetch on the state with that entry deleted — one provider fetch, the
corrupt entry gone afterwards, and the fresh provider payload returned when
it is usable.  The dashboard's variant instead propagates the
deserialization error (see the counterexample). -/
theorem C8_amended_self_healing :
    ∀ (provider : String → ProviderResult) (symbol : String) (st : CacheState),
      st symbol = some CacheEntry.corrupt →
      Scraper.fetch_with_cache provider symbol st =
          Scraper.fetchFresh provider symbol (cacheErase symbol st) ∧
        (Scraper.fetch_with_cache provider symbol st).2.2 = 1 ∧
        (Scraper.fetch_with_cache provider symbol st).2.1 symbol ≠
          some CacheEntry.corrupt ∧
        ∀ info, provider symbol = .dict info → info ≠ [] →
          (Scraper.fetch_with_cache provider symbol st).1 = some info := by
  intro provider symbol st hcorrupt
  have heq : Scraper.fetch_with_cache provider symbol st =
      Scraper.fetchFresh provider symbol (cacheErase symbol st) := by
    rw [Scraper.fetch_with_cache, hcorrupt]
  refine ⟨heq, ?_, ?_, ?_⟩
  · rw [heq, Scraper.fetchFresh]
    rcases hp : provider symbol with - | info <;> simp only [hp]
    by_cases hi : info = []
    · rw [if_pos hi]
    · rw [if_neg hi]
  · rw [heq, Scraper.fetchFresh]
    rcases hp : provider symbol with - | info <;> simp only [hp]
    · simp [cacheErase]
    · by_cases hi : info = []
      · rw [if_pos hi]
        simp [cacheErase]
      · rw [if_neg hi]
        simp [cacheInsert]
  · intro info hdict hinfo
    rw [heq, Scraper.fetchFresh]
    simp only [hdict, if_neg hinfo]

/-- C8 amended witness: with a corrupt entry for `"A"` and a usable provider,
the scraper's fetch makes exactly one provider call and returns the fresh
payload. -/
theorem C8_amended_self_healing_witness :
    (Scraper.fetch_with_cache provA "A" corruptCacheA).2.2 = 1 ∧
      (Scraper.fetch_with_cache provA "A" corruptCacheA).1 =
        some [("currentPrice", PyVal.num 1)] :=
  ⟨(C8_amended_self_healing provA "A" corruptCacheA rfl).2.1,
    (C8_amended_self_healing provA "A" corruptCacheA rfl).2.2.2
      [("currentPrice", PyVal.num 1)] rfl (by decide)⟩

/-! ### Claims C9-C10 : session invariant and catalog persistence -/

/-- C9: every execution of `fetch_and_parse_stocks` returns the `suid` and
`aut` tokens either both `None` (any failure: missing configuration, non-200
status, rejection text, or a missing/blank token) or both present; never one
without the other. -/
theorem C9_session_all_or_nothing :
    ∀ env : LoginEnv,
      ((fetch_and_parse_stocks env).suid = none ∧
          (fetch_and_parse_stocks env).aut = none) ∨
        ((fetch_and_parse_stocks env).suid ≠ none ∧
          (fetch_and_parse_stocks env).aut ≠ none) := by
  intro env
  rw [fetch_and_parse_stocks]
  split_ifs with h1 h2 h3 h4
  · exact Or.inl ⟨rfl, rfl⟩
  · exact Or.inl ⟨rfl, rfl⟩
  · exact Or.inl ⟨rfl, rfl⟩
  · exact Or.inl ⟨rfl, rfl⟩
  · simp only [Bool.or_eq_true, not_or, Bool.not_eq_true] at h3
    obtain ⟨hsu, hau⟩ := h3
    refine Or.inr ⟨?_, ?_⟩
    · cases hs : env.suidParam with
      | none => rw [hs] at hsu; simp [pyFalsy] at hsu
      | some s => simp [hs]
    · cases ha : env.autParam with
      | none => rw [ha] at hau; simp [pyFalsy] at hau
      | some a => simp [ha]

/-- C10: when login succeeds, the catalog request returns 200 and the
dropdown control is absent, the parsed catalog is empty, yet the fallback
file `data/extracted_stocks.txt` is still opened in write mode and written
with the (empty) catalog: its content becomes `""`, destroying the previous
snapshot, and a later offline fallback load of that content yields an empty
catalog. -/
theorem C10_empty_catalog_truncates_fallback :
    ∀ env : LoginEnv,
      pyFalsy env.login_url = false → pyFalsy env.stocks_url = false →
      env.loginStatus = 200 → pyContains "Se connecter" env.loginText = false →
      pyFalsy env.suidParam = false → pyFalsy env.autParam = false →
      env.stocksStatus = 200 → env.selectElement = none →
      (fetch_and_parse_stocks env).stocks = [] ∧
        (fetch_and_parse_stocks env).extractedFile = some "" ∧
        loadExtractedStocks "" = [] := by
  intro env hu1 hu2 hls hrej hsu hau hss hsel
  have hrun : fetch_and_parse_stocks env = ⟨[], env.suidParam, env.autParam, some ""⟩ := by
    rw [fetch_and_parse_stocks, hu1, hu2, hls, hrej, hsu, hau, hss, hsel]
    rfl
  rw [hrun]
  exact ⟨rfl, rfl, rfl⟩

/-- C10 witness: a fully successful run against a portal whose catalog page
lacks the dropdown control. -/
theorem C10_empty_catalog_truncates_fallback_witness :
    (fetch_and_parse_stocks
          ⟨some "u", some "s", 200, "Bienvenue", some "S1", some "A1", 200, none⟩).stocks = [] ∧
      (fetch_and_parse_stocks
          ⟨some "u", some "s", 200, "Bienvenue", some "S1", some "A1", 200, none⟩).extractedFile =
        some "" ∧
      loadExtractedStocks "" = [] :=
  C10_empty_catalog_truncates_fallback
    ⟨some "u", some "s", 200, "Bienvenue", some "S1", some "A1", 200, none⟩
    rfl rfl rfl (by decide) rfl rfl rfl rfl

end Bourstad
